import Mathlib

/-!
Verification development for the pi-gpio-project repository.

The repository is a tutorial whose code defines, in `main.go` and the
embedded walkthrough code blocks:

* a single-pin program: `host.Init()` (fatal on error), `rpi.P1_15.Out(gpio.High)`,
  then block on an OS signal;
* a `PinCycle` struct with fields `Pin` and `Running`, a `Cycle()` method that
  spawns a goroutine running `f.Running = true; state := gpio.High;
  for f.Running { f.Pin.Out(state); time.Sleep(...); flip state }`, and a
  `Stop()` method that is exactly `f.Running = false`;
* a randomized sleep `sleepDuration := rand.Intn(1000-300) + 300` (milliseconds)
  replacing the fixed `time.Sleep(500 * time.Millisecond)`;
* six `PinCycle` values (pins `SO_51, SO_53, SO_63, SO_77, SO_81, SO_83`) and an
  HTTP handler on `/` that calls `Cycle()` on all six when
  `r.URL.Query().Get("mode") == "on"` and `Stop()` on all six otherwise.

The Go code is embedded as a small-step machine: a controller state carries the
`PinCycle` struct, the list of goroutines spawned by `Cycle()` (each with its
loop-local program counter), and the trace of levels commanded to the pin.
Scheduler nondeterminism is explicit: `stepTask` advances one chosen goroutine
by one atomic step, and `Cycle`/`Stop` model the method calls made by the HTTP
handler task.
-/

namespace PiBlink

/-- The pin level, `gpio.High` / `gpio.Low`. -/
inductive Level where
  | High
  | Low
deriving DecidableEq

/-- The state-flip block of the Cycle loop:
`if state == gpio.High { state = gpio.Low } else { state = gpio.High }`. -/
def flipState : Level → Level
  | .High => .Low
  | .Low => .High

/-- The `PinCycle` struct: `Pin gpio.PinIO` (modelled as the pin's numeric id)
and `Running bool`. -/
structure PinCycle where
  Pin : Nat
  Running : Bool
deriving DecidableEq

/-- Program counter of one goroutine spawned by `Cycle()`.
`started`: spawned, has not yet executed `f.Running = true`.
`atCheck state`: at the `for f.Running` guard with loop-local `state`.
`sleeping state`: has executed `f.Pin.Out(state)` and is inside `time.Sleep`;
on waking it flips `state` and returns to the guard.
`exited`: the guard observed `Running == false` and the goroutine returned. -/
inductive TaskPhase where
  | started
  | atCheck (state : Level)
  | sleeping (state : Level)
  | exited
deriving DecidableEq

/-- State of one controller: the struct, the goroutines spawned on it, and the
trace of levels commanded to its pin (oldest first). -/
structure CtrlState where
  ctrl : PinCycle
  tasks : List TaskPhase
  writes : List Level
deriving DecidableEq

/-- `func (f *PinCycle) Cycle()`: spawns the goroutine (unconditionally — there
is no guard on `f.Running`) and returns immediately; the caller's state is
otherwise untouched, in particular `Cycle` itself does not write `f.Running`. -/
def Cycle (s : CtrlState) : CtrlState :=
  { s with tasks := s.tasks ++ [TaskPhase.started] }

/-- `func (f *PinCycle) Stop() { f.Running = false }` — the whole body. -/
def Stop (s : CtrlState) : CtrlState :=
  { s with ctrl := { s.ctrl with Running := false } }

/-- One scheduler step of the goroutine at index `i` (no-op if there is none).
`started` executes `f.Running = true; state := gpio.High` and reaches the guard;
at the guard, if `f.Running` the body runs `f.Pin.Out(state)` and enters the
sleep, otherwise the loop exits; waking from the sleep flips `state` and
returns to the guard. -/
def stepTask (s : CtrlState) (i : Nat) : CtrlState :=
  match s.tasks[i]? with
  | none => s
  | some .started =>
      { s with ctrl := { s.ctrl with Running := true },
               tasks := s.tasks.set i (.atCheck .High) }
  | some (.atCheck l) =>
      if s.ctrl.Running then
        { s with tasks := s.tasks.set i (.sleeping l),
                 writes := s.writes ++ [l] }
      else
        { s with tasks := s.tasks.set i .exited }
  | some (.sleeping l) =>
      { s with tasks := s.tasks.set i (.atCheck (flipState l)) }
  | some .exited => s

/-- Run `n` consecutive scheduler steps of the goroutine at index `i`. -/
def runTaskSteps (s : CtrlState) (i : Nat) : Nat → CtrlState
  | 0 => s
  | n + 1 => runTaskSteps (stepTask s i) i n

/-- The levels written by the first `n` iterations of the Cycle loop body when
`Running` stays true: each iteration performs `f.Pin.Out(state)` and then the
flip block updates `state`. -/
def loopWrites : Nat → Level → List Level
  | 0, _ => []
  | n + 1, st => st :: loopWrites n (flipState st)

/-- The write trace of an undisturbed loop, which enters with `state := gpio.High`. -/
def cycleWrites (n : Nat) : List Level :=
  loopWrites n .High

/-- A freshly constructed controller, `PinCycle{Pin: ..., Running: false}`. -/
def newPinCycle (pin : Nat) : CtrlState :=
  { ctrl := { Pin := pin, Running := false }, tasks := [], writes := [] }

/-- `sleepDuration := rand.Intn(1000-300) + 300`; the argument `r` stands for
the value returned by `rand.Intn(1000-300)`, which lies in `[0, 1000-300)`. -/
def sleepDuration (r : Nat) : Nat :=
  r + 300

/-- The fixed-variant sleep, `time.Sleep(500 * time.Millisecond)`, in milliseconds. -/
def fixedSleepMs : Nat :=
  500

/-- The six controllers of the multi-pin variant, mirroring the Go variables
`p14 p15 p18 p23 p24 p25` (named after the GPIO numbers they drive). -/
structure Registry where
  p14 : CtrlState
  p15 : CtrlState
  p18 : CtrlState
  p23 : CtrlState
  p24 : CtrlState
  p25 : CtrlState
deriving DecidableEq

/-- The registry viewed as the ordered collection of its six controllers. -/
def Registry.controllers (r : Registry) : List CtrlState :=
  [r.p14, r.p15, r.p18, r.p23, r.p24, r.p25]

/-- The registry built in `main`: `PinCycle{Pin: rpi.SO_xx, Running: false}` for
the six simulator pins `SO_51, SO_53, SO_63, SO_77, SO_81, SO_83`. -/
def initialRegistry : Registry :=
  { p14 := newPinCycle 51
    p15 := newPinCycle 53
    p18 := newPinCycle 63
    p23 := newPinCycle 77
    p24 := newPinCycle 81
    p25 := newPinCycle 83 }

/-- `r.URL.Query().Get("mode")`: the query parameter's value, or the empty
string when the parameter is absent from the request. -/
def getModeParam : Option String → String
  | none => ""
  | some v => v

/-- The body of the `http.HandleFunc("/", ...)` handler: if
`r.URL.Query().Get("mode") == "on"` call `Cycle()` on all six controllers,
otherwise call `Stop()` on all six. -/
def handleRoot (modeParam : Option String) (reg : Registry) : Registry :=
  if getModeParam modeParam = "on" then
    { p14 := Cycle reg.p14
      p15 := Cycle reg.p15
      p18 := Cycle reg.p18
      p23 := Cycle reg.p23
      p24 := Cycle reg.p24
      p25 := Cycle reg.p25 }
  else
    { p14 := Stop reg.p14
      p15 := Stop reg.p15
      p18 := Stop reg.p18
      p23 := Stop reg.p23
      p24 := Stop reg.p24
      p25 := Stop reg.p25 }

/-- Calling `Stop()` on the i-th controller of the registry and no other,
as the handler's else-branch does one variable at a time. -/
def stopNth (reg : Registry) : Fin 6 → Registry
  | ⟨0, _⟩ => { reg with p14 := Stop reg.p14 }
  | ⟨1, _⟩ => { reg with p15 := Stop reg.p15 }
  | ⟨2, _⟩ => { reg with p18 := Stop reg.p18 }
  | ⟨3, _⟩ => { reg with p23 := Stop reg.p23 }
  | ⟨4, _⟩ => { reg with p24 := Stop reg.p24 }
  | ⟨5, _⟩ => { reg with p25 := Stop reg.p25 }

/-- Calling `Cycle()` on the i-th controller of the registry and no other. -/
def cycleNth (reg : Registry) : Fin 6 → Registry
  | ⟨0, _⟩ => { reg with p14 := Cycle reg.p14 }
  | ⟨1, _⟩ => { reg with p15 := Cycle reg.p15 }
  | ⟨2, _⟩ => { reg with p18 := Cycle reg.p18 }
  | ⟨3, _⟩ => { reg with p23 := Cycle reg.p23 }
  | ⟨4, _⟩ => { reg with p24 := Cycle reg.p24 }
  | ⟨5, _⟩ => { reg with p25 := Cycle reg.p25 }

/-- Result of `host.Init()`: success, or a non-nil error. -/
inductive InitResult where
  | ok
  | err
deriving DecidableEq

/-- The observable effects of a `main` run: the pin levels commanded (in
order), whether `http.ListenAndServe` was reached, whether the process blocked
on the signal channel, and whether `log.Fatal` aborted it. -/
structure MainTrace where
  pinCommands : List (Nat × Level)
  httpExposed : Bool
  blockedOnSignal : Bool
  fatal : Bool
deriving DecidableEq

/-- The statements of `main` that have observable effects. -/
inductive Instr where
  | initDrivers
  | pinOut (pin : Nat) (l : Level)
  | waitSignal
  | listenHTTP
deriving DecidableEq

/-- Sequential execution of `main`'s statements. `initDrivers` is the
`host.Init()` call: on error, `log.Fatal(err)` terminates the process, so
nothing after it executes. -/
def execInstrs (init : InitResult) : List Instr → MainTrace → MainTrace
  | [], t => t
  | ins :: rest, t =>
    match ins with
    | .initDrivers =>
      match init with
      | .err => { t with fatal := true }
      | .ok => execInstrs init rest t
    | .pinOut p l => execInstrs init rest { t with pinCommands := t.pinCommands ++ [(p, l)] }
    | .waitSignal => execInstrs init rest { t with blockedOnSignal := true }
    | .listenHTTP => execInstrs init rest { t with httpExposed := true }

/-- The trace at process start: nothing commanded, nothing exposed. -/
def emptyTrace : MainTrace :=
  { pinCommands := [], httpExposed := false, blockedOnSignal := false, fatal := false }

/-- The pin driven by the single-pin variant, `rpi.P1_15` (physical pin 15). -/
def pinP1_15 : Nat :=
  15

/-- The single-pin variant's `main` (src/main.go lines 13-29): `host.Init()`
with a fatal error check, `rpi.P1_15.Out(gpio.High)`, then `<-c` blocking on a
signal. The logger calls have no modelled effect. -/
def mainSingleProgram : List Instr :=
  [.initDrivers, .pinOut pinP1_15 .High, .waitSignal]

/-- Run the single-pin variant's `main` with the given `host.Init()` outcome. -/
def mainSingle (init : InitResult) : MainTrace :=
  execInstrs init mainSingleProgram emptyTrace

/-- The HTTP variant's `main`: `host.Init()` with the same fatal check, the six
`PinCycle` constructions (which command no pins), `http.HandleFunc` (registers
the handler without exposing it), then `http.ListenAndServe(":9000", nil)`. -/
def mainHTTPProgram : List Instr :=
  [.initDrivers, .listenHTTP]

/-- Run the HTTP variant's `main` with the given `host.Init()` outcome. -/
def mainHTTP (init : InitResult) : MainTrace :=
  execInstrs init mainHTTPProgram emptyTrace

/-- Iterated state flip: the value of the loop-local `state` after `n` iterations. -/
def flipIter : Nat → Level → Level
  | 0, st => st
  | n + 1, st => flipIter n (flipState st)

/-- A freshly constructed controller on simulator pin `SO_51`. -/
def freshCtrl : CtrlState :=
  newPinCycle 51

/-!  Supporting lemmas about the machine. -/

theorem flipState_flipState (l : Level) : flipState (flipState l) = l := by
  cases l <;> rfl

theorem flipState_ne (l : Level) : flipState l ≠ l := by
  cases l <;> decide

/-- Index formula for the loop's write trace: the i-th write is the entry
state flipped i times, which alternates with the parity of i. -/
theorem loopWrites_getElem (n i : Nat) (st : Level) (h : i < n) :
    (loopWrites n st)[i]? = some (if i % 2 = 0 then st else flipState st) := by
  induction n generalizing i st with
  | zero => omega
  | succ n ih =>
    cases i with
    | zero => simp [loopWrites]
    | succ i =>
      have hi : i < n := by omega
      simp only [loopWrites, List.getElem?_cons_succ, ih i (flipState st) hi]
      rcases Nat.mod_two_eq_zero_or_one i with h2 | h2
      · have h3 : (i + 1) % 2 = 1 := by omega
        simp [h2, h3]
      · have h3 : (i + 1) % 2 = 0 := by omega
        simp [h2, h3, flipState_flipState]

/-- A goroutine with no thread at index `i`, or whose thread has exited,
never moves again. -/
theorem stepTask_absorbed (s : CtrlState) (i : Nat)
    (h : s.tasks[i]? = none ∨ s.tasks[i]? = some TaskPhase.exited) :
    stepTask s i = s := by
  rcases h with h | h <;> rw [stepTask.eq_def, h]

/-- One step of a goroutine that is past its `f.Running = true` assignment
cannot set the flag, write the pin, or become `started` again, when the flag
is already false. -/
theorem stepTask_preserves (s : CtrlState) (i : Nat)
    (hr : s.ctrl.Running = false) (ht : s.tasks[i]? ≠ some TaskPhase.started) :
    (stepTask s i).writes = s.writes ∧
    (stepTask s i).ctrl.Running = false ∧
    (stepTask s i).tasks[i]? ≠ some TaskPhase.started := by
  cases h : s.tasks[i]? with
  | none =>
    rw [stepTask_absorbed s i (Or.inl h)]
    exact ⟨rfl, hr, ht⟩
  | some p =>
    have hlen : i < s.tasks.length := by
      rcases List.getElem?_eq_some.mp h with ⟨hl, _⟩
      exact hl
    cases p with
    | started => exact absurd h ht
    | atCheck l =>
      have hstep : stepTask s i = { s with tasks := s.tasks.set i .exited } := by
        rw [stepTask.eq_def, h, hr]
        rfl
      rw [hstep]
      exact ⟨rfl, hr, by simp [List.getElem?_set_self hlen]⟩
    | sleeping l =>
      have hstep : stepTask s i =
          { s with tasks := s.tasks.set i (.atCheck (flipState l)) } := by
        rw [stepTask.eq_def, h]
      rw [hstep]
      exact ⟨rfl, hr, by simp [List.getElem?_set_self hlen]⟩
    | exited =>
      rw [stepTask_absorbed s i (Or.inr h)]
      exact ⟨rfl, hr, ht⟩

/-- Chaining `runTaskSteps`. -/
theorem runTaskSteps_add (s : CtrlState) (i a b : Nat) :
    runTaskSteps s i (a + b) = runTaskSteps (runTaskSteps s i a) i b := by
  induction a generalizing s with
  | zero => rw [Nat.zero_add]; rfl
  | succ a ih =>
    have e : a + 1 + b = (a + b) + 1 := by omega
    rw [e, runTaskSteps, runTaskSteps, ih]

theorem runTaskSteps_absorbed (s : CtrlState) (i n : Nat)
    (h : s.tasks[i]? = none ∨ s.tasks[i]? = some TaskPhase.exited) :
    runTaskSteps s i n = s := by
  induction n with
  | zero => rfl
  | succ n ih => rw [runTaskSteps, stepTask_absorbed s i h, ih]

/-- Iterating `stepTask_preserves`: the flag stays down, the trace is frozen. -/
theorem runTaskSteps_preserves (s : CtrlState) (i n : Nat)
    (hr : s.ctrl.Running = false) (ht : s.tasks[i]? ≠ some TaskPhase.started) :
    (runTaskSteps s i n).writes = s.writes ∧
    (runTaskSteps s i n).ctrl.Running = false ∧
    (runTaskSteps s i n).tasks[i]? ≠ some TaskPhase.started := by
  induction n generalizing s with
  | zero => exact ⟨rfl, hr, ht⟩
  | succ n ih =>
    obtain ⟨h1, h2, h3⟩ := stepTask_preserves s i hr ht
    obtain ⟨g1, g2, g3⟩ := ih (stepTask s i) h2 h3
    exact ⟨by rw [runTaskSteps, g1, h1], by rw [runTaskSteps]; exact g2,
      by rw [runTaskSteps]; exact g3⟩

/-- With the flag down, a goroutine that is past the `f.Running = true`
assignment reaches `exited` within two scheduler steps (wake from the sleep,
then fail the guard). -/
theorem two_steps_exit (s : CtrlState) (i : Nat)
    (hr : s.ctrl.Running = false) (ht : s.tasks[i]? ≠ some TaskPhase.started) :
    (runTaskSteps s i 2).tasks[i]? = none ∨
    (runTaskSteps s i 2).tasks[i]? = some TaskPhase.exited := by
  have e2 : runTaskSteps s i 2 = stepTask (stepTask s i) i := rfl
  cases h : s.tasks[i]? with
  | none =>
    rw [runTaskSteps_absorbed s i 2 (Or.inl h)]
    exact Or.inl h
  | some p =>
    have hlen : i < s.tasks.length := by
      rcases List.getElem?_eq_some.mp h with ⟨hl, _⟩
      exact hl
    cases p with
    | started => exact absurd h ht
    | atCheck l =>
      have h1 : stepTask s i = { s with tasks := s.tasks.set i .exited } := by
        rw [stepTask.eq_def, h, hr]
        rfl
      have h1i : (stepTask s i).tasks[i]? = some TaskPhase.exited := by
        rw [h1]
        exact List.getElem?_set_self hlen
      rw [e2, stepTask_absorbed _ i (Or.inr h1i)]
      exact Or.inr h1i
    | sleeping l =>
      have h1 : stepTask s i = { s with tasks := s.tasks.set i (.atCheck (flipState l)) } := by
        rw [stepTask.eq_def, h]
      have h1i : (stepTask s i).tasks[i]? = some (TaskPhase.atCheck (flipState l)) := by
        rw [h1]
        exact List.getElem?_set_self hlen
      have h2 : stepTask (stepTask s i) i =
          { stepTask s i with tasks := (stepTask s i).tasks.set i .exited } := by
        rw [stepTask.eq_def, h1i]
        have : (stepTask s i).ctrl.Running = false := by rw [h1]; exact hr
        rw [this]
        rfl
      have hlen2 : i < (stepTask s i).tasks.length := by
        rw [h1]
        simpa using hlen
      rw [e2, h2]
      exact Or.inr (List.getElem?_set_self hlen2)
    | exited =>
      rw [runTaskSteps_absorbed s i 2 (Or.inr h)]
      exact Or.inr h

/-- The machine refines the closed-form trace: an undisturbed loop (one
goroutine at its guard, flag held true) writes `loopWrites n st` in `2n` steps
and is back at its guard. -/
theorem runTaskSteps_loop (c : PinCycle) (hc : c.Running = true) (st : Level)
    (w : List Level) (n : Nat) :
    runTaskSteps { ctrl := c, tasks := [.atCheck st], writes := w } 0 (2 * n) =
      { ctrl := c, tasks := [.atCheck (flipIter n st)], writes := w ++ loopWrites n st } := by
  induction n generalizing st w with
  | zero => simp [runTaskSteps, flipIter, loopWrites]
  | succ n ih =>
    have hsingle : ∀ t : CtrlState, runTaskSteps t 0 1 = stepTask t 0 := fun t => rfl
    have h1 : stepTask { ctrl := c, tasks := [.atCheck st], writes := w } 0 =
        { ctrl := c, tasks := [.sleeping st], writes := w ++ [st] } := by
      rw [stepTask.eq_def]
      simp [hc]
    have h2 : stepTask { ctrl := c, tasks := [.sleeping st], writes := w ++ [st] } 0 =
        { ctrl := c, tasks := [.atCheck (flipState st)], writes := w ++ [st] } := by
      rw [stepTask.eq_def]
      simp
    have e : 2 * (n + 1) = 1 + (1 + 2 * n) := by omega
    rw [e, runTaskSteps_add, runTaskSteps_add, hsingle, hsingle, h1, h2,
      ih (flipState st) (w ++ [st])]
    simp [flipIter, loopWrites]

/-- A run of one controller in which `Stop()` arrives while the loop sleeps
after writing High: `Cycle()`, the goroutine runs through its first
`f.Pin.Out(gpio.High)` into the sleep, `Stop()` is called, the goroutine
wakes, flips its local state and exits at the guard. -/
def stopScenario : CtrlState :=
  stepTask (stepTask (Stop (stepTask (stepTask (Cycle freshCtrl) 0) 0)) 0) 0

/-- Two `Cycle()` calls on the same fresh controller, then each of the two
spawned goroutines is stepped twice (body entry, then first guard + write). -/
def doubleStarted : CtrlState :=
  stepTask (stepTask (stepTask (stepTask (Cycle (Cycle freshCtrl)) 0) 1) 0) 1

/-!  Claim theorems. -/

/-- C1 counterexample: `Stop()` does not command the pin Low. In the concrete
run `stopScenario` the loop has fully terminated after `Stop()`, yet the pin's
last commanded level is High, not Low — `Stop()` is exactly
`f.Running = false` and performs no pin write. -/
theorem stop_not_low_counterexample :
    stopScenario.tasks = [TaskPhase.exited] ∧
    stopScenario.ctrl.Running = false ∧
    stopScenario.writes.getLast? = some Level.High ∧
    stopScenario.writes.getLast? ≠ some Level.Low := by
  decide

/-- C1 (amended): `Stop()` sets the running flag to false and does nothing
else — it issues no pin command, so the pin's last commanded level after
`Stop()` returns is whatever the loop last wrote, not necessarily Low. -/
theorem stop_sets_flag_only (s : CtrlState) :
    (Stop s).ctrl.Running = false ∧
    (Stop s).ctrl.Pin = s.ctrl.Pin ∧
    (Stop s).writes = s.writes ∧
    (Stop s).tasks = s.tasks :=
  ⟨rfl, rfl, rfl, rfl⟩

/-- C2 (code bug): `Cycle()` has no guard on `f.Running`, so two successive
calls spawn two concurrent loops on the same pin: after two `Cycle()` calls
two goroutines exist, and stepping each through its first iteration produces
two interleaved writes — the duplicated toggling the claim rules out. -/
theorem cycle_unguarded_double_loop :
    (Cycle (Cycle freshCtrl)).tasks.length = 2 ∧
    doubleStarted.writes = [Level.High, Level.High] ∧
    doubleStarted.tasks = [TaskPhase.sleeping Level.High, TaskPhase.sleeping Level.High] := by
  decide

/-- C3: the `/` handler calls `Cycle()` on all six controllers exactly when
the `mode` query parameter is present and equal to "on", and calls `Stop()`
on all six for any other value and for an absent parameter (for which
`r.URL.Query().Get("mode")` yields the empty string). -/
theorem handler_mode_dispatch (modeParam : Option String) (reg : Registry) :
    (handleRoot modeParam reg).controllers =
      if modeParam = some "on" then reg.controllers.map Cycle
      else reg.controllers.map Stop := by
  cases modeParam with
  | none => simp [handleRoot, getModeParam, Registry.controllers]
  | some v =>
    by_cases hv : v = "on" <;>
      simp [handleRoot, getModeParam, hv, Registry.controllers]

/-- C4: every randomized sleep `rand.Intn(1000-300) + 300` lies in
`[300, 1000)` milliseconds for every value `rand.Intn` can return, and the
fixed-variant sleep is exactly 500 milliseconds. -/
theorem sleep_interval_bounds (r : Nat) (h : r < 1000 - 300) :
    300 ≤ sleepDuration r ∧ sleepDuration r < 1000 ∧ fixedSleepMs = 500 := by
  unfold sleepDuration fixedSleepMs
  omega

/-- C4 witness at the concrete random value 0. -/
theorem sleep_interval_bounds_witness :
    (0 : Nat) < 1000 - 300 ∧
    (300 ≤ sleepDuration 0 ∧ sleepDuration 0 < 1000 ∧ fixedSleepMs = 500) :=
  ⟨by decide, sleep_interval_bounds 0 (by decide)⟩

/-- C5: within one loop the pin writes strictly alternate — the first write is
High, and each subsequent write is the flip of the previous one, so no level
is commanded twice in a row. -/
theorem cycle_writes_alternate (n i : Nat) (h0 : 0 < n) (h : i + 1 < n) :
    (cycleWrites n)[0]? = some Level.High ∧
    (cycleWrites n)[i + 1]? = ((cycleWrites n)[i]?).map flipState ∧
    (cycleWrites n)[i + 1]? ≠ (cycleWrites n)[i]? := by
  have hi := loopWrites_getElem n i .High (by omega)
  have hi1 := loopWrites_getElem n (i + 1) .High h
  have h0e := loopWrites_getElem n 0 .High h0
  unfold cycleWrites at *
  refine ⟨by simpa using h0e, ?_, ?_⟩
  · rw [hi, hi1, Option.map_some']
    rcases Nat.mod_two_eq_zero_or_one i with h2 | h2
    · have h3 : (i + 1) % 2 = 1 := by omega
      simp [h2, h3]
    · have h3 : (i + 1) % 2 = 0 := by omega
      simp [h2, h3, flipState_flipState]
  · rw [hi, hi1]
    rcases Nat.mod_two_eq_zero_or_one i with h2 | h2
    · have h3 : (i + 1) % 2 = 1 := by omega
      simp only [h2, h3]
      intro hc
      exact flipState_ne .High (by injection hc)
    · have h3 : (i + 1) % 2 = 0 := by omega
      simp only [h2, h3]
      intro hc
      exact flipState_ne .High (by injection hc with hc; exact hc.symm)

/-- C5 witness on the three-iteration trace. -/
theorem cycle_writes_alternate_witness :
    0 < 3 ∧ 0 + 1 < 3 ∧
    ((cycleWrites 3)[0]? = some Level.High ∧
     (cycleWrites 3)[0 + 1]? = ((cycleWrites 3)[0]?).map flipState ∧
     (cycleWrites 3)[0 + 1]? ≠ (cycleWrites 3)[0]?) :=
  ⟨by decide, by decide, cycle_writes_alternate 3 0 (by decide) (by decide)⟩

/-- C6: once the running flag is false, a loop goroutine past its
`f.Running = true` assignment writes nothing further and exits within two
scheduler steps (at most: wake from the in-flight sleep, then fail the
`for f.Running` guard), rather than looping forever. -/
theorem running_false_loop_exits (s : CtrlState) (i n : Nat)
    (hr : s.ctrl.Running = false) (ht : s.tasks[i]? ≠ some TaskPhase.started)
    (hn : 2 ≤ n) :
    (runTaskSteps s i n).writes = s.writes ∧
    (runTaskSteps s i n).ctrl.Running = false ∧
    ((runTaskSteps s i n).tasks[i]? = none ∨
     (runTaskSteps s i n).tasks[i]? = some TaskPhase.exited) := by
  obtain ⟨h1, h2, _⟩ := runTaskSteps_preserves s i n hr ht
  refine ⟨h1, h2, ?_⟩
  obtain ⟨m, rfl⟩ : ∃ m, n = 2 + m := ⟨n - 2, by omega⟩
  rw [runTaskSteps_add, runTaskSteps_absorbed _ i m (two_steps_exit s i hr ht)]
  exact two_steps_exit s i hr ht

/-- A controller whose flag is down while its goroutine is still inside its
sleep after writing High. -/
def sleepingStopped : CtrlState :=
  { ctrl := { Pin := 53, Running := false },
    tasks := [TaskPhase.sleeping Level.High],
    writes := [Level.High] }

/-- C6 witness: three steps of the stopped controller's goroutine write
nothing and leave it exited. -/
theorem running_false_loop_exits_witness :
    sleepingStopped.ctrl.Running = false ∧
    sleepingStopped.tasks[0]? ≠ some TaskPhase.started ∧
    2 ≤ 3 ∧
    ((runTaskSteps sleepingStopped 0 3).writes = sleepingStopped.writes ∧
     (runTaskSteps sleepingStopped 0 3).ctrl.Running = false ∧
     ((runTaskSteps sleepingStopped 0 3).tasks[0]? = none ∨
      (runTaskSteps sleepingStopped 0 3).tasks[0]? = some TaskPhase.exited)) :=
  ⟨rfl, by decide, by decide,
    running_false_loop_exits sleepingStopped 0 3 rfl (by decide) (by decide)⟩

/-- C7: when `host.Init()` returns an error, `log.Fatal` aborts the process:
no pin is commanded and the HTTP listener is never reached, in both the
single-pin and the HTTP program variants. -/
theorem init_failure_aborts :
    (mainSingle .err).fatal = true ∧
    (mainSingle .err).pinCommands = [] ∧
    (mainSingle .err).httpExposed = false ∧
    (mainSingle .err).blockedOnSignal = false ∧
    (mainHTTP .err).fatal = true ∧
    (mainHTTP .err).httpExposed = false ∧
    (mainHTTP .err).pinCommands = [] := by
  decide

/-- C8: starting or stopping the i-th controller of the registry leaves every
other controller's entire state — `Running` flag, `Pin` field, and commanded
write trace — unchanged. -/
theorem controller_independence (reg : Registry) (i j : Fin 6) (h : i ≠ j) :
    (stopNth reg i).controllers[j.val]? = reg.controllers[j.val]? ∧
    (cycleNth reg i).controllers[j.val]? = reg.controllers[j.val]? := by
  fin_cases i <;> fin_cases j <;>
    simp_all [stopNth, cycleNth, Registry.controllers]

/-- C8 witness on the first two controllers of the initial registry. -/
theorem controller_independence_witness :
    (0 : Fin 6) ≠ 1 ∧
    ((stopNth initialRegistry 0).controllers[(1 : Fin 6).val]? =
        initialRegistry.controllers[(1 : Fin 6).val]? ∧
     (cycleNth initialRegistry 0).controllers[(1 : Fin 6).val]? =
        initialRegistry.controllers[(1 : Fin 6).val]?) :=
  ⟨by decide, controller_independence initialRegistry 0 1 (by decide)⟩

/-- C9: `Cycle()` itself never writes the running flag — the spawned goroutine
sets `f.Running = true` as its first action — so a `Stop()` that lands between
`Cycle()` returning and the goroutine's first step is overwritten, leaving the
controller running. -/
theorem cycle_defers_running_flag (s : CtrlState) :
    (Cycle s).ctrl.Running = s.ctrl.Running ∧
    (stepTask (Stop (Cycle s)) s.tasks.length).ctrl.Running = true := by
  refine ⟨rfl, ?_⟩
  have h : (Stop (Cycle s)).tasks[s.tasks.length]? = some TaskPhase.started := by
    show (s.tasks ++ [TaskPhase.started])[s.tasks.length]? = some TaskPhase.started
    exact List.getElem?_concat_length s.tasks TaskPhase.started
  rw [stepTask.eq_def, h]

/-- C10: the single-pin variant, after successful initialization, commands
exactly one pin write — `P1_15` to High — never commands Low, and blocks on
the signal channel, so the last commanded level at process exit is High. -/
theorem single_pin_variant_trace :
    (mainSingle .ok).pinCommands = [(pinP1_15, Level.High)] ∧
    (mainSingle .ok).pinCommands.getLast? = some (pinP1_15, Level.High) ∧
    Level.Low ∉ (mainSingle .ok).pinCommands.map Prod.snd ∧
    (mainSingle .ok).blockedOnSignal = true ∧
    (mainSingle .ok).fatal = false := by
  decide

end PiBlink
